import Mathlib

/-!
Verification development for the BitNet Windows installer/orchestrator.

The definitions below are a shallow embedding of the installation core
(installer.py, installer_core.py, installer_gui_tabs.py, control_panel_tab.py).
External effects (filesystem, subprocesses, network) are modelled by explicit
environment records describing the outcomes those effects produce during one
run; the functions then follow the control flow of the Python source over
those records.  Machine floats appear in the source only in the progress
rescaling expression 10 + int(current / total * 30) with total = 100; for
0 <= current <= 100 that expression agrees exactly with the natural-number
floor division 10 + current * 30 / 100 used here (checked case by case at the
truncation boundaries, the multiples of 10).
-/

namespace BitNetInstaller

/-! ## String primitives mirroring the Python operations used by the core -/

/-- Python substring membership (the in operator on str): pat occurs
contiguously inside s. -/
def containsSub (s pat : String) : Bool := decide (pat.toList <:+: s.toList)

/-- Python str.lower restricted to the character-wise case mapping; the
patterns the installer scans for are all ASCII, where this agrees with
Python. -/
def lowerStr (s : String) : String := ⟨s.data.map Char.toLower⟩

theorem string_toList_append (a b : String) : (a ++ b).toList = a.toList ++ b.toList := by
  cases a; cases b; rfl

theorem containsSub_append_right (pre msg : String) : containsSub (pre ++ msg) msg = true := by
  have h : msg.toList <:+: (pre ++ msg).toList := by
    rw [string_toList_append]
    exact (List.suffix_append _ _).isInfix
  simpa [containsSub] using h

theorem containsSub_of_append_left (w s pat : String) (h : containsSub s pat = true) :
    containsSub (w ++ s) pat = true := by
  have hs : pat.toList <:+: s.toList := by simpa [containsSub] using h
  have : pat.toList <:+: (w ++ s).toList := by
    rw [string_toList_append]
    exact hs.trans (List.suffix_append _ _).isInfix
  simpa [containsSub] using this

/-! ## Order predicates on progress sequences -/

/-- Boolean check that a list of naturals is non-decreasing. -/
def nondecB : List Nat → Bool
  | [] => true
  | [_] => true
  | a :: b :: t => decide (a ≤ b) && nondecB (b :: t)

/-- Boolean check that a list of naturals is strictly increasing. -/
def sincB : List Nat → Bool
  | [] => true
  | [_] => true
  | a :: b :: t => decide (a < b) && sincB (b :: t)

theorem nondecB_iff : ∀ l : List Nat, nondecB l = true ↔ l.Chain' (· ≤ ·)
  | [] => by simp [nondecB]
  | [a] => by simp [nondecB]
  | a :: b :: t => by
    simp [nondecB, List.chain'_cons, nondecB_iff (b :: t)]

theorem sincB_iff : ∀ l : List Nat, sincB l = true ↔ l.Chain' (· < ·)
  | [] => by simp [sincB]
  | [a] => by simp [sincB]
  | a :: b :: t => by
    simp [sincB, List.chain'_cons, sincB_iff (b :: t)]

/-! ## installer.py: configuration persistence

The configuration is a JSON object holding string and boolean values.  It is
modelled as an insertion-ordered association list, matching the key order of
a Python dict; lookup returns the value of the first matching key. -/

/-- Scalar values occurring in the configuration record. -/
inductive ConfigVal where
  | s (v : String)
  | b (v : Bool)
deriving DecidableEq

/-- A configuration record, as the Python dict parsed from config.json. -/
abbrev Config := List (String × ConfigVal)

/-- Key lookup in a record (Python dict indexing / membership). -/
def lookupKey (c : Config) (k : String) : Option ConfigVal := c.lookup k

/-- DEFAULT_CONFIG from installer.py.  The install_dir default is
os.path.join(os.path.expanduser("~"), "BitNet"), so it depends on the home
directory, passed here as a parameter. -/
def DEFAULT_CONFIG (home : String) : Config :=
  [("install_dir", ConfigVal.s (home ++ "\\BitNet")),
   ("conda_path", ConfigVal.s ""),
   ("git_path", ConfigVal.s ""),
   ("vs_path", ConfigVal.s ""),
   ("enable_gpu", ConfigVal.b true),
   ("create_shortcut", ConfigVal.b true),
   ("first_run", ConfigVal.b true)]

/-- Backfill loop inside load_config: every DEFAULT_CONFIG key missing from
the loaded record is added with its default value; a Python dict appends new
keys at the end in iteration order. -/
def backfillDefaults (c : Config) (defaults : Config) : Config :=
  c ++ defaults.filter (fun kv => (lookupKey c kv.1).isNone)

/-- State of config.json as observable by load_config: missing, present but
failing to parse, or present with a parsed record. -/
inductive ConfigFile where
  | absent
  | corrupted
  | valid (c : Config)
deriving DecidableEq

/-- save_config from installer.py: json.dump the record and return True, or
log and return False when the write raises; writeOk is whether the write
succeeds.  Returns the resulting file state and the boolean result. -/
def save_config (c : Config) (fs : ConfigFile) (writeOk : Bool) : ConfigFile × Bool :=
  if writeOk then (ConfigFile.valid c, true) else (fs, false)

/-- load_config from installer.py: when the file exists and parses, backfill
missing default keys and return the record; otherwise (missing file, or any
exception while reading or parsing, which is caught and logged) fall through
to saving DEFAULT_CONFIG and returning a copy of it.  Returns the loaded
record and the resulting file state. -/
def load_config (home : String) (fs : ConfigFile) (writeOk : Bool) : Config × ConfigFile :=
  match fs with
  | ConfigFile.valid c => (backfillDefaults c (DEFAULT_CONFIG home), fs)
  | ConfigFile.corrupted =>
      (DEFAULT_CONFIG home, (save_config (DEFAULT_CONFIG home) fs writeOk).1)
  | ConfigFile.absent =>
      (DEFAULT_CONFIG home, (save_config (DEFAULT_CONFIG home) fs writeOk).1)

theorem lookup_filter_of_none (c : Config) (d : Config) (k : String)
    (h : lookupKey c k = none) :
    lookupKey (d.filter (fun kv => (lookupKey c kv.1).isNone)) k = lookupKey d k := by
  simp only [lookupKey] at h ⊢
  induction d with
  | nil => rfl
  | cons hd t ih =>
    by_cases hk : (k == hd.1) = true
    · have hkeep : (List.lookup hd.1 c).isNone = true := by
        rw [← eq_of_beq hk]
        simp [h]
      simp [List.filter, hkeep, List.lookup, hk]
    · by_cases hkeep : (List.lookup hd.1 c).isNone = true
      · simp [List.filter, hkeep, List.lookup, hk, ih]
      · simp only [Bool.not_eq_true] at hkeep
        simp [List.filter, hkeep, List.lookup, hk, ih]

theorem lookup_append_cfg (c d : Config) (k : String) :
    lookupKey (c ++ d) k =
      match lookupKey c k with
      | some v => some v
      | none => lookupKey d k := by
  unfold lookupKey
  induction c with
  | nil => simp [List.lookup]
  | cons hd t ih =>
    by_cases hk : (k == hd.1) = true
    · simp [List.lookup, hk]
    · simp [List.lookup, hk, ih]

theorem lookup_backfill (c d : Config) (k : String) :
    lookupKey (backfillDefaults c d) k =
      match lookupKey c k with
      | some v => some v
      | none => lookupKey d k := by
  unfold backfillDefaults
  rw [lookup_append_cfg]
  rcases h : lookupKey c k with _ | v
  · exact lookup_filter_of_none c d k h
  · rfl

/-! ## installer_core.py: download_file -/

/-- Observable effects during one download_file call: whether os.makedirs on
the destination parent raises, whether urllib.request.urlopen raises, the
Content-Length the server reports (none when the header is absent), the sizes
of the successive non-empty chunks response.read yields, and an optional
failure point inside the streaming loop (an exception after k chunks were
written, caught by the surrounding try). -/
structure DownloadEnv where
  makedirsRaises : Bool
  urlopenRaises : Bool
  contentLength : Option Nat
  chunks : List Nat
  streamFailAfter : Option Nat
deriving DecidableEq

/-- Outcome of calling a Python function: an exception escapes to the
caller, or a value is returned. -/
inductive PyOutcome (α : Type) where
  | raised
  | returned (v : α)
deriving DecidableEq

/-- Running total of downloaded bytes after each chunk, as accumulated by
the statement downloaded += len(chunk). -/
def chunkTotals (acc : Nat) : List Nat → List Nat
  | [] => []
  | c :: cs => (acc + c) :: chunkTotals (acc + c) cs

/-- file_size = int(response.info().get(Content-Length, 0)): zero when the
header is missing. -/
def reportedSize (env : DownloadEnv) : Nat := env.contentLength.getD 0

/-- Chunks actually processed before the loop ends or the stream fails. -/
def processedChunks (env : DownloadEnv) : List Nat :=
  match env.streamFailAfter with
  | some k => env.chunks.take k
  | none => env.chunks

/-- The (downloaded, file_size) pairs passed to progress_callback: one call
with (0, file_size) before the loop, then one call after each chunk written. -/
def downloadProgressCalls (env : DownloadEnv) : List (Nat × Nat) :=
  (0, reportedSize env) ::
    (chunkTotals 0 (processedChunks env)).map (fun s => (s, reportedSize env))

/-- download_file from installer_core.py.  The os.makedirs call on the
destination parent runs before the try block, so a failure there escapes to
the caller as an exception; every failure inside the try block is caught and
turned into a False return.  Returns the outcome at the call boundary
together with the progress calls that were delivered. -/
def download_file (env : DownloadEnv) : PyOutcome Bool × List (Nat × Nat) :=
  if env.makedirsRaises then (PyOutcome.raised, [])
  else if env.urlopenRaises then (PyOutcome.returned false, [])
  else match env.streamFailAfter with
    | some _ => (PyOutcome.returned false, downloadProgressCalls env)
    | none => (PyOutcome.returned true, downloadProgressCalls env)

theorem sincB_chunkTotals (cs : List Nat) (acc : Nat) (hpos : ∀ c ∈ cs, 0 < c) :
    sincB (acc :: chunkTotals acc cs) = true := by
  induction cs generalizing acc with
  | nil => rfl
  | cons c t ih =>
    have hc : 0 < c := hpos c (by simp)
    have ht : ∀ x ∈ t, 0 < x := fun x hx => hpos x (by simp [hx])
    have := ih (acc + c) ht
    simp [chunkTotals, sincB, this]
    omega

theorem getLast?_chunkTotals (cs : List Nat) (acc : Nat) :
    (acc :: chunkTotals acc cs).getLast? = some (acc + cs.sum) := by
  induction cs generalizing acc with
  | nil => simp [chunkTotals]
  | cons c t ih =>
    have := ih (acc + c)
    simp [chunkTotals, List.getLast?_cons, this] at *
    omega

/-! ## installer_core.py: prerequisite installers -/

/-- Error value for a raised InstallationError, carrying its message. -/
structure InstallationError where
  msg : String
deriving DecidableEq

/-- Observable effects during one prerequisite-installer call: whether
download_file returned True, the exit code of the silent installer run
(check=True raises CalledProcessError on non-zero), whether the follow-up
verification finds the tool (check_git / os.path.exists on conda.exe /
check_visual_studio), and the exit code of the conda init run (Miniconda
only). -/
structure PrereqEnv where
  downloadOk : Bool
  installerExit : Int
  verifyFindsTool : Bool
  condaInitExit : Int
deriving DecidableEq

/-- install_git from installer_core.py. -/
def install_git (env : PrereqEnv) : Except InstallationError Bool :=
  if env.downloadOk = false then
    Except.error ⟨"Failed to download Git installer"⟩
  else if env.installerExit ≠ 0 then
    Except.error ⟨"Git installation failed with exit code " ++ toString env.installerExit⟩
  else if env.verifyFindsTool then Except.ok true
  else Except.error ⟨"Git installation could not be verified"⟩

/-- install_miniconda from installer_core.py; on success returns the conda
executable path under the home directory.  Verification precedes the conda
init run, whose CalledProcessError is caught by the same handler as the
installer run. -/
def install_miniconda (home : String) (env : PrereqEnv) : Except InstallationError String :=
  if env.downloadOk = false then
    Except.error ⟨"Failed to download Miniconda installer"⟩
  else if env.installerExit ≠ 0 then
    Except.error ⟨"Miniconda installation failed with exit code " ++ toString env.installerExit⟩
  else if env.verifyFindsTool then
    if env.condaInitExit ≠ 0 then
      Except.error ⟨"Miniconda installation failed with exit code " ++ toString env.condaInitExit⟩
    else Except.ok (home ++ "\\miniconda3_bitnet\\Scripts\\conda.exe")
  else Except.error ⟨"Miniconda installation could not be verified"⟩

/-- install_vs_build_tools from installer_core.py. -/
def install_vs_build_tools (env : PrereqEnv) : Except InstallationError Bool :=
  if env.downloadOk = false then
    Except.error ⟨"Failed to download Visual Studio Build Tools installer"⟩
  else if env.installerExit ≠ 0 then
    Except.error ⟨"Visual Studio Build Tools installation failed with exit code " ++
      toString env.installerExit⟩
  else if env.verifyFindsTool then Except.ok true
  else Except.error ⟨"Visual Studio Build Tools installation could not be verified"⟩

/-! ## installer_core.py: clone_bitnet -/

/-- Failure categories distinguished by the classification chain run on the
buffered clone output. -/
inductive CloneFailureKind where
  | permission
  | auth
  | generic
deriving DecidableEq

/-- Classification chain on the buffered output when the clone subprocess
exits non-zero: a case-insensitive first match on the work-tree pattern,
then on the authentication pattern, else generic. -/
def classify_clone_failure (errorMsg : String) : CloneFailureKind :=
  if containsSub (lowerStr errorMsg) "could not create work tree" then
    CloneFailureKind.permission
  else if containsSub (lowerStr errorMsg) "authentication failed" then
    CloneFailureKind.auth
  else
    CloneFailureKind.generic

/-- Message of the InstallationError raised inside the progress branch of
clone_bitnet when the clone subprocess exits non-zero, before the outermost
handler re-wraps it; the branch taken is the classification chain. -/
def clone_failure_message (returncode : Int) (errorMsg : String) : String :=
  match classify_clone_failure errorMsg with
  | CloneFailureKind.permission =>
      "Git clone failed: Could not create work tree. Check folder permissions."
  | CloneFailureKind.auth =>
      "Git clone failed: Authentication failed. Check network connection."
  | CloneFailureKind.generic =>
      "Git clone failed with exit code " ++ toString returncode ++ ". Details: " ++ errorMsg

/-- Outermost exception handler of clone_bitnet: every error raised inside
is re-raised as an InstallationError with this wrapped message. -/
def clone_wrap (msg : String) : String := "Failed to clone BitNet repository: " ++ msg

/-- Action clone_bitnet ends up performing on the working tree. -/
inductive RepoAction where
  | pulled
  | cloned
deriving DecidableEq

/-- Observable subprocess behavior during one clone_bitnet call: exit code
and stderr of git pull (used when version-control metadata is present), and
exit code and buffered output of git clone (used otherwise). -/
structure RepoEnv where
  pullExit : Int
  pullStderr : String
  cloneExit : Int
  cloneOutput : String
deriving DecidableEq

/-- clone_bitnet from installer_core.py (progress-callback variant), over
the state bit gitPresent = os.path.exists(install_dir/.git).  On success
returns the action taken and whether the directory now holds
version-control metadata; on failure returns the wrapped InstallationError.
The pull-failure InstallationError is itself caught and re-wrapped twice
(by the pull-local handler, then the outermost handler). -/
def clone_bitnet (env : RepoEnv) (gitPresent : Bool) :
    Except InstallationError (RepoAction × Bool) :=
  if gitPresent then
    if env.pullExit = 0 then Except.ok (RepoAction.pulled, true)
    else
      Except.error
        ⟨clone_wrap ("Error pulling repository: " ++ "Git pull failed: " ++ env.pullStderr)⟩
  else
    if env.cloneExit = 0 then Except.ok (RepoAction.cloned, true)
    else Except.error ⟨clone_wrap (clone_failure_message env.cloneExit env.cloneOutput)⟩

/-! ## installer_core.py: setup_conda_env -/

/-- Externally visible steps of setup_conda_env on the path where every
shelled-out command succeeds, in execution order. -/
inductive SetupStep where
  | listEnvs
  | createEnv
  | writeRequirements
  | installRequirements
  | writePathFile
  | verifyImport
deriving DecidableEq

/-- Name of the conda environment used throughout setup_conda_env. -/
def env_name : String := "bitnet-cpp"

/-- Steps setup_conda_env performs given the stdout of the environment
listing, whether requirements.txt already exists in install_dir, and whether
the walk over install_dir found candidate package directories.  The
existence test is Python substring membership of env_name in the entire
listing output. -/
def setup_conda_env_steps (envListStdout : String) (requirementsExists : Bool)
    (foundPackageDirs : Bool) : List SetupStep :=
  [SetupStep.listEnvs]
  ++ (if containsSub envListStdout env_name then [] else [SetupStep.createEnv])
  ++ (if requirementsExists then [] else [SetupStep.writeRequirements])
  ++ [SetupStep.installRequirements]
  ++ (if foundPackageDirs then [SetupStep.writePathFile, SetupStep.verifyImport] else [])

/-! ## installer_gui_tabs.py: InstallerTab._install_bitnet_thread -/

/-- clone_progress from _install_bitnet_thread: rescales a clone-native
percentage (the callback is always invoked with total = 100) into the 10-40
band; Python truncation int(current / total * 30) agrees with this floor
division for 0 <= current <= 100. -/
def clone_progress (current : Nat) : Nat := 10 + current * 30 / 100

/-- Values delivered through clone_progress during one successful fresh
clone whose parsed "Receiving objects" percentages are ps: clone_bitnet
invokes the callback once with 0, once per parsed line, and once with 100
after the subprocess exits. -/
def clone_callback_values (ps : List Nat) : List Nat :=
  (0 :: ps ++ [100]).map clone_progress

/-- Progress-bar values set during one successful run of
_install_bitnet_thread, in order: 10 at the clone header, the rescaled clone
callbacks, 40 re-asserted at the boundary to environment setup, the 41..79
ramp run before setup_conda_env, 80 at the script-generation header, and 100
on completion. -/
def install_progress_seq (ps : List Nat) : List Nat :=
  [10] ++ clone_callback_values ps ++ [40] ++ List.range' 41 39 ++ [80, 100]

/-! ## control_panel_tab.py: server supervisor -/

/-- Status values the bitnet_status variable of the control panel takes. -/
inductive ServerStatus where
  | notRunning
  | starting
  | ready
  | stopped
  | error
deriving DecidableEq

/-- Observable environment of one press of the Start button on a fresh
ControlPanelTab (bitnet_process still None): the relevant configuration
values, filesystem facts, and the output lines and exit codes of the
subprocesses the background thread may run. -/
structure StartEnv where
  installDir : String
  installDirExists : Bool
  condaPath : String
  condaPathExists : Bool
  setupEnvExists : Bool
  setupLines : List String
  setupExit : Int
  exeFound : Bool
  ggufFound : Bool
  scriptFound : Bool
  mainFound : Bool
  procLines : List String
  procExit : Int
deriving DecidableEq

/-- Ready transitions fired while streaming the output of a subprocess: one
per line containing the start marker. -/
def streamStatuses (lines : List String) : List ServerStatus :=
  lines.filterMap
    (fun l => if containsSub l "Server started at" then some ServerStatus.ready else none)

/-- Status assignments made while running one launched subprocess to
completion: the streamed Ready transitions, then Stopped on exit code zero
and Error otherwise. -/
def runProcessStatuses (lines : List String) (exitCode : Int) : List ServerStatus :=
  streamStatuses lines ++
    [if exitCode = 0 then ServerStatus.stopped else ServerStatus.error]

/-- Whether _start_server_thread assigns a subprocess to self.bitnet_process:
with an executable found it launches it when a gguf model exists, else falls
back to a server script, else to main.py; without an executable no process
is launched at all (the setup wrapper run is a local variable, not
bitnet_process). -/
def launchesProcess (env : StartEnv) : Bool :=
  env.exeFound && (env.ggufFound || env.scriptFound || env.mainFound)

/-- Status assignments performed by _start_server_thread, in order.  With an
empty conda path or install dir the raised exception is caught by the final
handler, which sets Error.  When the configured conda path does not exist
the code calls core.find_conda, an attribute installer_core does not define,
so the AttributeError is caught by the same handler.  After the optional
setup-wrapper run, the final streaming loop reads self.bitnet_process, which
is None when nothing was launched, and the resulting AttributeError again
resolves to Error. -/
def start_server_thread (env : StartEnv) : List ServerStatus :=
  if env.condaPath = "" || env.installDir = "" then [ServerStatus.error]
  else if env.condaPathExists = false then [ServerStatus.error]
  else
    (if env.setupEnvExists then runProcessStatuses env.setupLines env.setupExit else [])
    ++ (if launchesProcess env then runProcessStatuses env.procLines env.procExit
        else [ServerStatus.error])

/-- start_bitnet_server from control_panel_tab.py: the install check with
its error dialog, then the Starting assignment and the background thread.
Returns the error-dialog message, if one was shown, and the ordered list of
status assignments. -/
def start_bitnet_server (env : StartEnv) : Option String × List ServerStatus :=
  if env.installDir = "" || env.installDirExists = false then
    (some "BitNet is not installed. Please install it first.", [])
  else
    (none, ServerStatus.starting :: start_server_thread env)

/-- Status displayed once the start sequence has finished: the last
assignment made, or the initial Not Running value when none was made. -/
def final_status (env : StartEnv) : ServerStatus :=
  ((start_bitnet_server env).2).getLastD ServerStatus.notRunning

/-! ## Claim theorems -/

/-- Claim C9: saving a configuration record and loading it back yields the
same record (per-key) except that recognized keys absent from the original
are filled with the documented defaults, while keys unknown to
DEFAULT_CONFIG are preserved unchanged; and loading a corrupted
configuration file does not raise: it falls back to the default record and
writes a fresh save of the defaults. -/
theorem config_roundtrip_and_corruption (home : String) (c : Config) (fs0 : ConfigFile)
    (k : String) :
    (lookupKey (load_config home (save_config c fs0 true).1 true).1 k =
      match lookupKey c k with
      | some v => some v
      | none => lookupKey (DEFAULT_CONFIG home) k)
    ∧ load_config home ConfigFile.corrupted true =
        (DEFAULT_CONFIG home, ConfigFile.valid (DEFAULT_CONFIG home)) := by
  refine ⟨?_, rfl⟩
  show lookupKey (backfillDefaults c (DEFAULT_CONFIG home)) k = _
  exact lookup_backfill c (DEFAULT_CONFIG home) k

/-- Claim C10: the environment configurator decides that the bitnet-cpp
environment exists by a substring test of the name against the entire
listing output, so every listing output containing the characters
bitnet-cpp anywhere (also as part of a longer environment name or a path)
makes it skip creation and proceed directly to dependency installation. -/
theorem conda_env_substring_existence (out : String) (reqExists dirs : Bool)
    (h : containsSub out "bitnet-cpp" = true) :
    SetupStep.createEnv ∉ setup_conda_env_steps out reqExists dirs
    ∧ SetupStep.installRequirements ∈ setup_conda_env_steps out reqExists dirs := by
  refine ⟨?_, ?_⟩ <;>
    cases reqExists <;> cases dirs <;>
    simp [setup_conda_env_steps, env_name, h]

/-- Witness for claim C10 at a listing output that only contains the longer
environment name bitnet-cpp2. -/
theorem conda_env_substring_existence_witness :
    SetupStep.createEnv ∉
        setup_conda_env_steps "# conda environments:\nbitnet-cpp2  C:\\envs\\bitnet-cpp2" true true
    ∧ SetupStep.installRequirements ∈
        setup_conda_env_steps "# conda environments:\nbitnet-cpp2  C:\\envs\\bitnet-cpp2" true true :=
  conda_env_substring_existence "# conda environments:\nbitnet-cpp2  C:\\envs\\bitnet-cpp2"
    true true (by decide)

/-- Claim C7: for each of the three prerequisite installers, a zero
installer exit code combined with a failed presence verification raises the
could-not-be-verified InstallationError, and a successful exit code alone
never yields success: every successful return implies the verification
found the tool. -/
theorem prereq_install_requires_verification (home : String) (env : PrereqEnv)
    (hdl : env.downloadOk = true) (hexit : env.installerExit = 0)
    (hver : env.verifyFindsTool = false) :
    install_git env = Except.error ⟨"Git installation could not be verified"⟩
    ∧ install_miniconda home env =
        Except.error ⟨"Miniconda installation could not be verified"⟩
    ∧ install_vs_build_tools env =
        Except.error ⟨"Visual Studio Build Tools installation could not be verified"⟩
    ∧ (∀ e : PrereqEnv, ∀ r, install_git e = Except.ok r → e.verifyFindsTool = true)
    ∧ (∀ e : PrereqEnv, ∀ h r, install_miniconda h e = Except.ok r → e.verifyFindsTool = true)
    ∧ (∀ e : PrereqEnv, ∀ r, install_vs_build_tools e = Except.ok r →
        e.verifyFindsTool = true) := by
  refine ⟨?_, ?_, ?_, ?_, ?_, ?_⟩
  · simp [install_git, hdl, hexit, hver]
  · simp [install_miniconda, hdl, hexit, hver]
  · simp [install_vs_build_tools, hdl, hexit, hver]
  · intro e r h
    cases hb : e.verifyFindsTool
    · exfalso
      unfold install_git at h
      rw [hb] at h
      split_ifs at h
      simp_all
    · rfl
  · intro e hh r h
    cases hb : e.verifyFindsTool
    · exfalso
      unfold install_miniconda at h
      rw [hb] at h
      split_ifs at h
      simp_all
    · rfl
  · intro e r h
    cases hb : e.verifyFindsTool
    · exfalso
      unfold install_vs_build_tools at h
      rw [hb] at h
      split_ifs at h
      simp_all
    · rfl

/-- Witness for claim C7: a run where download succeeded, the silent
installer exited with code zero, and the verification does not find the
tool. -/
theorem prereq_install_requires_verification_witness :
    install_git ⟨true, 0, false, 0⟩ =
      Except.error ⟨"Git installation could not be verified"⟩
    ∧ install_miniconda "C:\\Users\\u" ⟨true, 0, false, 0⟩ =
        Except.error ⟨"Miniconda installation could not be verified"⟩ :=
  ⟨(prereq_install_requires_verification "C:\\Users\\u" ⟨true, 0, false, 0⟩ rfl rfl rfl).1,
   (prereq_install_requires_verification "C:\\Users\\u" ⟨true, 0, false, 0⟩ rfl rfl rfl).2.1⟩

/-- Claim C6: provisioning twice in a row on the same target with no
upstream changes succeeds both times and does not re-clone: a fresh target
is cloned and afterwards holds version-control metadata, a target holding
version-control metadata takes the pull path, and no successful call on
such a target ever reports the clone action. -/
theorem provision_twice_pulls (env : RepoEnv)
    (hclone : env.cloneExit = 0) (hpull : env.pullExit = 0) :
    clone_bitnet env false = Except.ok (RepoAction.cloned, true)
    ∧ clone_bitnet env true = Except.ok (RepoAction.pulled, true)
    ∧ (∀ e : RepoEnv, ∀ r, clone_bitnet e true = Except.ok r →
        r.1 = RepoAction.pulled) := by
  refine ⟨by simp [clone_bitnet, hclone], by simp [clone_bitnet, hpull], ?_⟩
  intro e r h
  unfold clone_bitnet at h
  by_cases hp : e.pullExit = 0
  · simp [hp] at h
    rw [← h]
  · simp [hp] at h

/-- Witness for claim C6: both calls succeed when pull and clone exit with
code zero; the second call reports the pull action. -/
theorem provision_twice_pulls_witness :
    clone_bitnet ⟨0, "", 0, ""⟩ false = Except.ok (RepoAction.cloned, true)
    ∧ clone_bitnet ⟨0, "", 0, ""⟩ true = Except.ok (RepoAction.pulled, true) :=
  ⟨(provision_twice_pulls ⟨0, "", 0, ""⟩ rfl rfl).1,
   (provision_twice_pulls ⟨0, "", 0, ""⟩ rfl rfl).2.1⟩

/-- Claim C4: on a non-zero clone exit, clone_bitnet raises the
InstallationError produced by the classification chain over the buffered
output: the work-tree pattern (case-insensitively) selects the
permission-related variant; otherwise the authentication pattern selects
the network-related variant; otherwise the generic variant, whose raised
message carries the full buffered output as a substring. -/
theorem clone_failure_classified (env : RepoEnv) (hrc : env.cloneExit ≠ 0) :
    clone_bitnet env false =
      Except.error ⟨clone_wrap (clone_failure_message env.cloneExit env.cloneOutput)⟩
    ∧ (containsSub (lowerStr env.cloneOutput) "could not create work tree" = true →
        classify_clone_failure env.cloneOutput = CloneFailureKind.permission
        ∧ clone_failure_message env.cloneExit env.cloneOutput =
            "Git clone failed: Could not create work tree. Check folder permissions.")
    ∧ (containsSub (lowerStr env.cloneOutput) "could not create work tree" = false →
        containsSub (lowerStr env.cloneOutput) "authentication failed" = true →
        classify_clone_failure env.cloneOutput = CloneFailureKind.auth
        ∧ clone_failure_message env.cloneExit env.cloneOutput =
            "Git clone failed: Authentication failed. Check network connection.")
    ∧ (containsSub (lowerStr env.cloneOutput) "could not create work tree" = false →
        containsSub (lowerStr env.cloneOutput) "authentication failed" = false →
        classify_clone_failure env.cloneOutput = CloneFailureKind.generic
        ∧ containsSub (clone_wrap (clone_failure_message env.cloneExit env.cloneOutput))
            env.cloneOutput = true) := by
  refine ⟨by simp [clone_bitnet, hrc], ?_, ?_, ?_⟩
  · intro h1
    simp [classify_clone_failure, clone_failure_message, h1]
  · intro h1 h2
    simp [classify_clone_failure, clone_failure_message, h1, h2]
  · intro h1 h2
    refine ⟨by simp [classify_clone_failure, h1, h2], ?_⟩
    have hmsg : clone_failure_message env.cloneExit env.cloneOutput =
        ("Git clone failed with exit code " ++ toString env.cloneExit ++ ". Details: ") ++
          env.cloneOutput := by
      simp [clone_failure_message, classify_clone_failure, h1, h2]
    rw [hmsg]
    show containsSub ("Failed to clone BitNet repository: " ++ _) _ = true
    exact containsSub_of_append_left _ _ _ (containsSub_append_right _ _)

/-- Witness for claim C4 at a clone that exits with code 1 and an output
matching none of the known patterns. -/
theorem clone_failure_classified_witness :
    clone_bitnet ⟨0, "", 1, "fatal: unable to access repo"⟩ false =
      Except.error ⟨clone_wrap (clone_failure_message 1 "fatal: unable to access repo")⟩ :=
  (clone_failure_classified ⟨0, "", 1, "fatal: unable to access repo"⟩ (by decide)).1

/-- Counterexample to claim C5: with a failing makedirs on the destination
parent (which runs before the try block) the download raises to its caller
instead of returning the False sentinel, so the operation does not return a
failure value on every failure. -/
theorem download_file_raises_on_makedirs :
    (download_file ⟨true, false, none, [], none⟩).1 = PyOutcome.raised
    ∧ ¬((download_file ⟨true, false, none, [], none⟩).1 = PyOutcome.returned false)
    ∧ ¬((download_file ⟨true, false, none, [], none⟩).1 = PyOutcome.returned true) := by
  refine ⟨rfl, ?_, ?_⟩ <;> intro h <;> exact PyOutcome.noConfusion h

/-- Claim C5 amended: apart from the creation of the destination parent
directory, which runs before the try block and propagates its exception to
the caller, download_file never raises: any failure of the request or of
the streaming loop is caught and returned as False, and success returns
True. -/
theorem download_file_no_raise_inside_try (env : DownloadEnv)
    (h : env.makedirsRaises = false) :
    (download_file env).1 =
      PyOutcome.returned (!env.urlopenRaises && env.streamFailAfter.isNone) := by
  unfold download_file
  rw [h]
  by_cases hu : env.urlopenRaises = true
  · simp [hu]
  · rcases hs : env.streamFailAfter with _ | k <;> simp [hu, hs]

/-- Witness for claim C5 at a fully successful download. -/
theorem download_file_no_raise_inside_try_witness :
    (download_file ⟨false, false, some 3, [3], none⟩).1 = PyOutcome.returned true :=
  download_file_no_raise_inside_try ⟨false, false, some 3, [3], none⟩ rfl

/-- Counterexample to claim C3: for the stderr percentages 10, 55, 100 the
rescaled values forwarded to the callback are 13, 26 and 40, not the
claimed 11, 27 and 40: the code computes 10 plus the truncation of
percent / 100 * 30, which yields 13 for 10 and 26 for 55. -/
theorem clone_rescale_counterexample :
    [10, 55, 100].map clone_progress = [13, 26, 40]
    ∧ ¬([10, 55, 100].map clone_progress = [11, 27, 40]) := by decide

/-- Claim C3 amended: when the target directory is empty and the clone
subprocess reports 10, 55 and 100 percent, the rescaled values forwarded to
the callback for those lines are 13, 26 and 40, all inside the 10..40
slice, and the overall progress of the run reaches 100 only as its final
value, after script generation has completed. -/
theorem clone_rescale_values :
    [10, 55, 100].map clone_progress = [13, 26, 40]
    ∧ (∀ v ∈ [10, 55, 100].map clone_progress, 10 ≤ v ∧ v ≤ 40)
    ∧ (install_progress_seq [10, 55, 100]).getLast? = some 100
    ∧ (install_progress_seq [10, 55, 100]).dropLast.all (fun v => decide (v < 100)) = true := by
  decide

/-- Counterexample to claim C1: with an unset install directory the start
operation shows the not-installed error dialog but makes no status
assignment at all, so the supervisor remains in the Not Running state
instead of entering the Error state. -/
theorem start_missing_install_counterexample :
    (start_bitnet_server
        ⟨"", false, "", false, false, [], 0, false, false, false, false, [], 0⟩).1
      = some "BitNet is not installed. Please install it first."
    ∧ final_status ⟨"", false, "", false, false, [], 0, false, false, false, false, [], 0⟩
        = ServerStatus.notRunning
    ∧ ¬(final_status ⟨"", false, "", false, false, [], 0, false, false, false, false, [], 0⟩
        = ServerStatus.error) := by decide

/-- Claim C1 amended: with an unset or non-existent install directory the
start operation reports the not-installed error message and returns without
any state transition, leaving the supervisor in Not Running rather than
Error; with a usable install directory but an unresolved environment-manager
path it transitions to Starting and the background thread then resolves to
the Error state. -/
theorem start_guard_transitions (env env2 : StartEnv)
    (h1 : env.installDir = "" ∨ env.installDirExists = false)
    (h2 : env2.installDir ≠ "") (h3 : env2.installDirExists = true)
    (h4 : env2.condaPath = "") :
    ((start_bitnet_server env).1 = some "BitNet is not installed. Please install it first."
      ∧ (start_bitnet_server env).2 = []
      ∧ final_status env = ServerStatus.notRunning)
    ∧ ((start_bitnet_server env2).2 = [ServerStatus.starting, ServerStatus.error]
      ∧ final_status env2 = ServerStatus.error) := by
  constructor
  · rcases h1 with h | h <;>
      simp [start_bitnet_server, final_status, h]
  · have htrace : (start_bitnet_server env2).2 =
        [ServerStatus.starting, ServerStatus.error] := by
      simp [start_bitnet_server, h2, h3, start_server_thread, h4]
    exact ⟨htrace, by simp [final_status, htrace]⟩

/-- Witness for claim C1 at two concrete configurations: an empty install
directory, and an existing install directory with an empty conda path. -/
theorem start_guard_transitions_witness :
    final_status ⟨"", false, "", false, false, [], 0, false, false, false, false, [], 1⟩
      = ServerStatus.notRunning
    ∧ final_status
        ⟨"C:\\BitNet", true, "", false, false, [], 0, false, false, false, false, [], 1⟩
      = ServerStatus.error :=
  ⟨(start_guard_transitions
      ⟨"", false, "", false, false, [], 0, false, false, false, false, [], 1⟩
      ⟨"C:\\BitNet", true, "", false, false, [], 0, false, false, false, false, [], 1⟩
      (Or.inl rfl) (by decide) rfl rfl).1.2.2,
   (start_guard_transitions
      ⟨"", false, "", false, false, [], 0, false, false, false, false, [], 1⟩
      ⟨"C:\\BitNet", true, "", false, false, [], 0, false, false, false, false, [], 1⟩
      (Or.inl rfl) (by decide) rfl rfl).2.2⟩

/-! ## Supporting lemmas for the progress claims -/

theorem clone_progress_ge (p : Nat) : 10 ≤ clone_progress p := by
  unfold clone_progress
  omega

theorem clone_progress_le (p : Nat) (h : p ≤ 100) : clone_progress p ≤ 40 := by
  unfold clone_progress
  have hdiv : p * 30 / 100 ≤ 30 := by
    calc p * 30 / 100 ≤ 100 * 30 / 100 :=
          Nat.div_le_div_right (Nat.mul_le_mul_right _ h)
    _ = 30 := by norm_num
  omega

theorem clone_progress_mono : Monotone clone_progress := by
  intro a b hab
  unfold clone_progress
  have hdiv : a * 30 / 100 ≤ b * 30 / 100 :=
    Nat.div_le_div_right (Nat.mul_le_mul_right _ hab)
  omega

/-- Claim C8: during a successful download whose chunk reads are all
non-empty, the first components of the progress calls are strictly
increasing and end exactly at the total N when the reported Content-Length
N equals the number of bytes streamed; and when no content length was
reported, every call carries 0 as its second component. -/
theorem download_progress_calls_spec (env : DownloadEnv) (n : Nat)
    (hmk : env.makedirsRaises = false) (hurl : env.urlopenRaises = false)
    (hstream : env.streamFailAfter = none)
    (hpos : ∀ c ∈ env.chunks, 0 < c) :
    (download_file env).1 = PyOutcome.returned true
    ∧ (env.contentLength = some n → env.chunks.sum = n →
        sincB ((download_file env).2.map Prod.fst) = true
        ∧ ((download_file env).2.map Prod.fst).getLast? = some n)
    ∧ (env.contentLength = none → ∀ q ∈ (download_file env).2, q.2 = 0) := by
  have hdf : download_file env = (PyOutcome.returned true, downloadProgressCalls env) := by
    simp [download_file, hmk, hurl, hstream]
  have hfirsts : (downloadProgressCalls env).map Prod.fst = 0 :: chunkTotals 0 env.chunks := by
    unfold downloadProgressCalls processedChunks
    rw [hstream]
    simp only [List.map_cons, List.map_map]
    rw [show (Prod.fst ∘ fun s => (s, reportedSize env)) = id from rfl]
    simp
  refine ⟨by rw [hdf], ?_, ?_⟩
  · intro _ hsum
    rw [hdf]
    simp only
    rw [hfirsts]
    refine ⟨sincB_chunkTotals env.chunks 0 hpos, ?_⟩
    rw [getLast?_chunkTotals env.chunks 0, Nat.zero_add, hsum]
  · intro hnone q hq
    rw [hdf] at hq
    simp only [downloadProgressCalls] at hq
    rcases List.mem_cons.1 hq with h | h
    · rw [h]
      simp [reportedSize, hnone]
    · rcases List.mem_map.1 h with ⟨s, _, rfl⟩
      simp [reportedSize, hnone]

/-- Witness for claim C8 at a download of 5 bytes in chunks of 2 and 3 with
a reported Content-Length of 5, and at a download with no reported length. -/
theorem download_progress_calls_spec_witness :
    (sincB ((download_file ⟨false, false, some 5, [2, 3], none⟩).2.map Prod.fst) = true
      ∧ ((download_file ⟨false, false, some 5, [2, 3], none⟩).2.map Prod.fst).getLast?
          = some 5)
    ∧ (∀ q ∈ (download_file ⟨false, false, none, [2, 3], none⟩).2, q.2 = 0) :=
  ⟨(download_progress_calls_spec ⟨false, false, some 5, [2, 3], none⟩ 5 rfl rfl rfl
      (by decide)).2.1 rfl rfl,
   (download_progress_calls_spec ⟨false, false, none, [2, 3], none⟩ 0 rfl rfl rfl
      (by decide)).2.2 rfl⟩

/-- Claim C2: over one full successful orchestrated run the sequence of
progress values delivered to the UI is non-decreasing and ends exactly at
100, and each phase stays inside its fixed slice: the clone phase (the
header value 10, the rescaled callbacks, and the boundary value 40
re-asserted at the hand-off) lies within 10..40, the environment-setup ramp
within 41..80, and the script-generation values within 80..100.  The
hypotheses state that the percentages parsed from the clone stderr are
non-decreasing and at most 100, as git reports them on a successful clone. -/
theorem install_progress_monotone (ps : List Nat)
    (hmono : nondecB ps = true) (hle : ∀ p ∈ ps, p ≤ 100) :
    nondecB (install_progress_seq ps) = true
    ∧ (install_progress_seq ps).getLast? = some 100
    ∧ (∀ v ∈ [10] ++ clone_callback_values ps ++ [40], 10 ≤ v ∧ v ≤ 40)
    ∧ (∀ v ∈ List.range' 41 39, 41 ≤ v ∧ v ≤ 80)
    ∧ (∀ v ∈ ([80, 100] : List Nat), 80 ≤ v ∧ v ≤ 100) := by
  have hbase : ((0 : Nat) :: (ps ++ [100])).Chain' (· ≤ ·) := by
    rw [List.chain'_cons']
    refine ⟨fun y _ => Nat.zero_le y, ?_⟩
    rw [List.chain'_append]
    refine ⟨(nondecB_iff ps).1 hmono, List.chain'_singleton 100, ?_⟩
    intro x hx y hy
    have hy100 : y = 100 := by simpa using hy.symm
    subst hy100
    exact hle x (List.mem_of_mem_getLast? hx)
  have hchainM : (clone_callback_values ps).Chain' (· ≤ ·) :=
    List.chain'_map_of_chain' clone_progress (fun a b hab => clone_progress_mono hab) hbase
  have hMne : clone_callback_values ps ≠ [] := by
    unfold clone_callback_values
    simp
  have hheadM : (clone_callback_values ps).head? = some 10 := rfl
  have hlastM : (clone_callback_values ps).getLast? = some 40 := by
    unfold clone_callback_values
    rw [List.getLast?_map]
    rw [List.getLast?_append_of_ne_nil _ (by simp)]
    rfl
  have hrampB : nondecB (List.range' 41 39 ++ [80, 100]) = true := by decide
  have htail : ([40] ++ (List.range' 41 39 ++ [80, 100]) : List Nat).Chain' (· ≤ ·) := by
    rw [show ([40] ++ (List.range' 41 39 ++ [80, 100]) : List Nat) =
        40 :: (List.range' 41 39 ++ [80, 100]) from rfl]
    rw [List.chain'_cons']
    refine ⟨?_, (nondecB_iff _).1 hrampB⟩
    intro y hy
    have hy41 : y = 41 := by
      have hh : (List.range' 41 39 ++ [80, 100] : List Nat).head? = some 41 := by decide
      rw [hh] at hy
      simpa using hy.symm
    omega
  have hchainL : (install_progress_seq ps).Chain' (· ≤ ·) := by
    have hshape : install_progress_seq ps =
        10 :: (clone_callback_values ps ++ ([40] ++ (List.range' 41 39 ++ [80, 100]))) := by
      simp [install_progress_seq]
    rw [hshape, List.chain'_cons']
    constructor
    · intro y hy
      rw [List.head?_append_of_ne_nil _ hMne, hheadM] at hy
      have hy10 : y = 10 := by simpa using hy.symm
      omega
    · rw [List.chain'_append]
      refine ⟨hchainM, htail, ?_⟩
      intro x hx y hy
      rw [hlastM] at hx
      have hx40 : x = 40 := by simpa using hx.symm
      have hy40 : y = 40 := by
        have hh : ([40] ++ (List.range' 41 39 ++ [80, 100]) : List Nat).head? = some 40 := rfl
        rw [hh] at hy
        simpa using hy.symm
      omega
  refine ⟨(nondecB_iff _).2 hchainL, ?_, ?_, by decide, by decide⟩
  · show (([10] ++ clone_callback_values ps ++ [40] ++ List.range' 41 39) ++
        [80, 100]).getLast? = some 100
    rw [List.getLast?_append_of_ne_nil _ (by simp)]
    rfl
  · intro v hv
    rcases List.mem_append.1 hv with hv' | hv40
    · rcases List.mem_append.1 hv' with hv10 | hvM
      · have hv10' : v = 10 := by simpa using hv10
        omega
      · rcases List.mem_map.1 hvM with ⟨p, hp, rfl⟩
        have hple : p ≤ 100 := by
          rcases List.mem_append.1 hp with h0ps | hl
          · rcases List.mem_cons.1 h0ps with h0 | hmem
            · omega
            · exact hle p hmem
          · have hp100 : p = 100 := by simpa using hl
            omega
        exact ⟨clone_progress_ge p, clone_progress_le p hple⟩
    · have hv40' : v = 40 := by simpa using hv40
      omega

/-- Witness for claim C2 at the parsed percentages 10, 55, 100. -/
theorem install_progress_monotone_witness :
    nondecB (install_progress_seq [10, 55, 100]) = true
    ∧ (install_progress_seq [10, 55, 100]).getLast? = some 100 :=
  ⟨(install_progress_monotone [10, 55, 100] (by decide) (by decide)).1,
   (install_progress_monotone [10, 55, 100] (by decide) (by decide)).2.1⟩
